import Mathlib

/-!
Shallow embedding of the ledger logic of `src/app/(tabs)/index.jsx`
(single-screen expense tracker).

Modelling conventions:
* JS numbers are modelled by `JNum`: NaN, ±Infinity, or a finite value
  carried as a rational.  The code calls `parseFloat` on the raw form text
  and uses the result without further checks, so NaN/±Infinity can flow
  into transactions and balances; the embedding keeps them.
* React state (`expenses`, `permanentBalance`, `permanentTotalIncome`)
  becomes an explicit `LedgerState` record threaded through operations.
* `AsyncStorage.setItem` may fail; each save helper catches its own error
  and logs, so a failed write is invisible to callers.  `StorageEnv` says
  which keys' writes fail, and an operation returns the list of writes
  that actually landed in storage.
* `Date.now().toString()` (fresh id generation) becomes the `freshId`
  parameter.
-/

/-- A JavaScript number: NaN, +Infinity, -Infinity, or a finite value
(modelled exactly as a rational, ignoring double rounding). -/
inductive JNum where
  | nan
  | inf
  | negInf
  | num (q : ℚ)
deriving DecidableEq

/-- JS addition on `JNum`: NaN is absorbing, `Infinity + (-Infinity)` is NaN,
otherwise an infinity dominates. -/
def JNum.add : JNum → JNum → JNum
  | .nan, _ => .nan
  | _, .nan => .nan
  | .inf, .negInf => .nan
  | .negInf, .inf => .nan
  | .inf, _ => .inf
  | _, .inf => .inf
  | .negInf, _ => .negInf
  | _, .negInf => .negInf
  | .num a, .num b => .num (a + b)

/-- JS unary negation on `JNum`. -/
def JNum.neg : JNum → JNum
  | .nan => .nan
  | .inf => .negInf
  | .negInf => .inf
  | .num a => .num (-a)

/-- JS subtraction: `a - b = a + (-b)` (exact for every sign/NaN case). -/
def JNum.sub (a b : JNum) : JNum := a.add b.neg

instance : Add JNum := ⟨JNum.add⟩

instance : Sub JNum := ⟨JNum.sub⟩

instance : Zero JNum := ⟨.num 0⟩

lemma JNum.add_def (a b : JNum) : a + b = JNum.add a b := rfl

lemma JNum.sub_def (a b : JNum) : a - b = a.add b.neg := rfl

lemma JNum.zero_def : (0 : JNum) = .num 0 := rfl

/-- Characters `parseFloat` skips as leading whitespace. -/
def isJsWhitespace (c : Char) : Bool :=
  c = ' ' || c = '\t' || c = '\n' || c = '\r' || c = '\x0b' || c = '\x0c'

/-- Value of a digit string, most significant first. -/
def digitsToNat (ds : List Char) : Nat :=
  ds.foldl (fun a c => a * 10 + (c.toNat - 48)) 0

/-- `10 ^ e` as a rational, for an integer exponent. -/
def pow10 (e : Int) : ℚ :=
  if 0 ≤ e then ((10 ^ e.toNat : ℕ) : ℚ) else 1 / ((10 ^ (-e).toNat : ℕ) : ℚ)

/-- The exponent part `('e'|'E') ('+'|'-')? digits` at the front of `cs`;
`0` when absent or when no digit follows (JS takes the longest valid
prefix, so a dangling `e` is simply not consumed). -/
def parseExponent (cs : List Char) : Int :=
  match cs with
  | c :: rest =>
    if c = 'e' ∨ c = 'E' then
      match rest with
      | '+' :: ds =>
          if ds.takeWhile Char.isDigit = [] then 0
          else (digitsToNat (ds.takeWhile Char.isDigit) : Int)
      | '-' :: ds =>
          if ds.takeWhile Char.isDigit = [] then 0
          else -(digitsToNat (ds.takeWhile Char.isDigit) : Int)
      | ds =>
          if ds.takeWhile Char.isDigit = [] then 0
          else (digitsToNat (ds.takeWhile Char.isDigit) : Int)
    else 0
  | [] => 0

/-- The unsigned decimal literal at the front of `cs`
(`digits ['.' digits] [exponent]`, also `.digits`); `none` when there is
no digit at all. -/
def parseUnsigned (cs : List Char) : Option ℚ :=
  let intDigits := cs.takeWhile Char.isDigit
  let rest := cs.dropWhile Char.isDigit
  let fracDigits := match rest with
    | '.' :: r => r.takeWhile Char.isDigit
    | _ => []
  let rest2 := match rest with
    | '.' :: r => r.dropWhile Char.isDigit
    | _ => rest
  if intDigits = [] ∧ fracDigits = [] then none
  else
    some ((digitsToNat (intDigits ++ fracDigits) : ℚ)
            / ((10 ^ fracDigits.length : ℕ) : ℚ)
            * pow10 (parseExponent rest2))

/-- The body of `parseFloat` after the optional sign has been consumed. -/
def parseSigned (neg : Bool) (cs : List Char) : JNum :=
  if cs.take 8 = "Infinity".data then (if neg then .negInf else .inf)
  else
    match parseUnsigned cs with
    | none => .nan
    | some q => .num (if neg then -q else q)

/-- JS `parseFloat`: skip leading whitespace, optional sign, then the
longest `Infinity`-or-decimal prefix; NaN when no number can be read. -/
def parseFloat (s : String) : JNum :=
  match s.data.dropWhile isJsWhitespace with
  | '-' :: rest => parseSigned true rest
  | '+' :: rest => parseSigned false rest
  | cs => parseSigned false cs

example : parseFloat "1000" = .num 1000 := by
  simp [parseFloat, parseSigned, parseUnsigned, parseExponent, digitsToNat, pow10, isJsWhitespace]

example : parseFloat "-5" = .num (-5) := by
  simp [parseFloat, parseSigned, parseUnsigned, parseExponent, digitsToNat, pow10, isJsWhitespace]

example : parseFloat "2.5" = .num (5 / 2) := by
  simp [parseFloat, parseSigned, parseUnsigned, parseExponent, digitsToNat, pow10, isJsWhitespace]
  norm_num

example : parseFloat " 3e2" = .num 300 := by
  simp [parseFloat, parseSigned, parseUnsigned, parseExponent, digitsToNat, pow10, isJsWhitespace]
  norm_num

example : parseFloat "abc" = .nan := by
  simp [parseFloat, parseSigned, parseUnsigned, parseExponent, digitsToNat, pow10, isJsWhitespace]

example : parseFloat "-Infinity" = .negInf := by
  simp [parseFloat, parseSigned, isJsWhitespace]

example : parseFloat "" = .nan := by
  simp [parseFloat, parseSigned, parseUnsigned, isJsWhitespace]

/-! ## Data model -/

/-- A recorded transaction (the object built at `newExpense` in
`addOrUpdateExpense`). -/
structure Transaction where
  id : String
  date : String
  description : String
  category : String
  amount : JNum
  paymentMethod : String
  type : String
deriving DecidableEq

/-- The form the user fills in; every field is raw text except `type`,
which the two type-selector buttons set to `"expense"` or `"income"`. -/
structure Form where
  date : String
  description : String
  category : String
  amount : String
  paymentMethod : String
  type : String
deriving DecidableEq

/-- The in-memory React state the ledger operations read and write:
`expenses`, `permanentBalance` and `permanentTotalIncome`. -/
structure LedgerState where
  expenses : List Transaction
  permanentBalance : JNum
  permanentTotalIncome : JNum
deriving DecidableEq

/-! ## Persistence

`AsyncStorage` holds three records, keyed `"expenses"`, `"permanentBalance"`
and `"totalIncome"`.  A save helper serialises one record and writes it;
its `try/catch` swallows any `setItem` failure (it only logs), so the
helper always returns normally and a failed write simply does not land. -/

/-- One record landing in storage. -/
inductive StorageWrite where
  | wExpenses (l : List Transaction)
  | wBalance (v : JNum)
  | wTotalIncome (v : JNum)
deriving DecidableEq

/-- Which keys' underlying `AsyncStorage.setItem` calls fail. -/
structure StorageEnv where
  setExpensesFails : Bool
  setBalanceFails : Bool
  setTotalIncomeFails : Bool
deriving DecidableEq

/-- A `StorageEnv` in which every write succeeds. -/
def envOk : StorageEnv := ⟨false, false, false⟩

/-- `saveExpensesToStorage`: returns the writes that landed (empty when the
underlying `setItem` failed); never raises, by its own `catch`. -/
def saveExpensesToStorage (env : StorageEnv) (expenses : List Transaction) :
    List StorageWrite :=
  if env.setExpensesFails then [] else [.wExpenses expenses]

/-- `saveBalanceToStorage`, under the same conventions. -/
def saveBalanceToStorage (env : StorageEnv) (balance : JNum) :
    List StorageWrite :=
  if env.setBalanceFails then [] else [.wBalance balance]

/-- `saveTotalIncomeToStorage`, under the same conventions. -/
def saveTotalIncomeToStorage (env : StorageEnv) (totalIncome : JNum) :
    List StorageWrite :=
  if env.setTotalIncomeFails then [] else [.wTotalIncome totalIncome]

/-- `loadExpensesFromStorage`: `get` is the outcome of `getItem` (which may
itself fail), `parse` is `JSON.parse` specialised to this record's shape.
The stored text is truthiness-tested, so an empty string short-circuits to
the default; a `JSON.parse` exception is caught and the default returned. -/
def loadExpensesFromStorage (get : Except Unit (Option String))
    (parse : String → Except Unit (List Transaction)) : List Transaction :=
  match get with
  | .error _ => []
  | .ok none => []
  | .ok (some stored) =>
      if stored = "" then []
      else
        match parse stored with
        | .error _ => []
        | .ok v => v

/-- `loadBalanceFromStorage`, same shape with default `0`. -/
def loadBalanceFromStorage (get : Except Unit (Option String))
    (parse : String → Except Unit JNum) : JNum :=
  match get with
  | .error _ => .num 0
  | .ok none => .num 0
  | .ok (some stored) =>
      if stored = "" then .num 0
      else
        match parse stored with
        | .error _ => .num 0
        | .ok v => v

/-- `loadTotalIncomeFromStorage`, same shape with default `0`. -/
def loadTotalIncomeFromStorage (get : Except Unit (Option String))
    (parse : String → Except Unit JNum) : JNum :=
  match get with
  | .error _ => .num 0
  | .ok none => .num 0
  | .ok (some stored) =>
      if stored = "" then .num 0
      else
        match parse stored with
        | .error _ => .num 0
        | .ok v => v

/-! ## Ledger operations -/

/-- How `addOrUpdateExpense` ended: early validation return
("Please fill in all fields.") or the success path.  The catch branch
("Failed to save transaction") is unreachable because every save helper
swallows its own storage error. -/
inductive AddOutcome where
  | validationError
  | saved
deriving DecidableEq

/-- Result of `addOrUpdateExpense`: the outcome alerted to the user, the
in-memory state afterwards, and the storage writes that landed. -/
structure AddResult where
  outcome : AddOutcome
  state : LedgerState
  writes : List StorageWrite
deriving DecidableEq

/-- `addOrUpdateExpense`.  `editingId` is the `editingId` React state
(`none` = null); `freshId` stands for `Date.now().toString()`.
`editingId || Date.now().toString()` and `editingId ? … : …` treat both
null and the empty string as falsy, hence the `eid?` normalisation.
Validation only checks the five fields for emptiness; the `parseFloat`
result is used unchecked. -/
def addOrUpdateExpense (env : StorageEnv) (s : LedgerState) (form : Form)
    (editingId : Option String) (freshId : String) : AddResult :=
  if form.date = "" ∨ form.description = "" ∨ form.category = "" ∨
      form.amount = "" ∨ form.paymentMethod = "" then
    { outcome := .validationError, state := s, writes := [] }
  else
    let eid? : Option String :=
      match editingId with
      | some e => if e = "" then none else some e
      | none => none
    let parsedAmount := parseFloat form.amount
    let newExpense : Transaction :=
      { id := eid?.getD freshId
        date := form.date
        description := form.description
        category := form.category
        amount := parsedAmount
        paymentMethod := form.paymentMethod
        type := if form.type = "" then "expense" else form.type }
    let updatedExpenses :=
      match eid? with
      | some eid => s.expenses.map fun e => if e.id = eid then newExpense else e
      | none => s.expenses ++ [newExpense]
    let newBalance :=
      if form.type = "income" then s.permanentBalance + parsedAmount
      else s.permanentBalance - parsedAmount
    let newTotalIncome :=
      if form.type = "income" then s.permanentTotalIncome + parsedAmount
      else s.permanentTotalIncome
    { outcome := .saved
      state := { expenses := updatedExpenses
                 permanentBalance := newBalance
                 permanentTotalIncome := newTotalIncome }
      writes := saveExpensesToStorage env updatedExpenses ++
                saveBalanceToStorage env newBalance ++
                saveTotalIncomeToStorage env newTotalIncome }

/-- `deleteExpense` (the confirmed "Delete" branch): filters the id out of
the list and saves only the list.  The `Except` mirrors the `try/catch`;
no operation in the try block can throw (the save helper swallows its own
errors), so the result is always `ok` and the "Success" alert fires. -/
def deleteExpense (env : StorageEnv) (s : LedgerState) (id : String) :
    Except String (LedgerState × List StorageWrite) :=
  let updatedExpenses := s.expenses.filter fun expense => expense.id != id
  .ok ({ s with expenses := updatedExpenses },
       saveExpensesToStorage env updatedExpenses)

/-- `resetBalance` (the confirmed "Reset" branch): saves balance `0` and
sets it in memory; nothing else is touched.  As with delete, the catch
branch is unreachable. -/
def resetBalance (env : StorageEnv) (s : LedgerState) :
    Except String (LedgerState × List StorageWrite) :=
  .ok ({ s with permanentBalance := .num 0 },
       saveBalanceToStorage env (.num 0))

/-! ## Derived totals -/

/-- `totalAmount`: fold of `sum + amount` over the whole list. -/
def totalAmount (expenses : List Transaction) : JNum :=
  expenses.foldl (fun sum t => sum + t.amount) (.num 0)

/-- `totalIncome`: same fold over the `type === 'income'` entries. -/
def totalIncome (expenses : List Transaction) : JNum :=
  (expenses.filter fun item => item.type == "income").foldl
    (fun sum t => sum + t.amount) (.num 0)

/-- `totalExpenses`: same fold over the `type === 'expense'` entries. -/
def totalExpenses (expenses : List Transaction) : JNum :=
  (expenses.filter fun item => item.type == "expense").foldl
    (fun sum t => sum + t.amount) (.num 0)

/-! ## Algebraic facts about `JNum` -/

protected lemma JNum.add_assoc' (a b c : JNum) : a + b + c = a + (b + c) := by
  cases a <;> cases b <;> cases c <;> simp [JNum.add_def, JNum.add, add_assoc]

protected lemma JNum.add_comm' (a b : JNum) : a + b = b + a := by
  cases a <;> cases b <;> simp [JNum.add_def, JNum.add, add_comm]

protected lemma JNum.zero_add' (a : JNum) : 0 + a = a := by
  cases a <;> simp [JNum.zero_def, JNum.add_def, JNum.add]

protected lemma JNum.add_zero' (a : JNum) : a + 0 = a := by
  cases a <;> simp [JNum.zero_def, JNum.add_def, JNum.add]

instance : AddCommMonoid JNum where
  add_assoc := JNum.add_assoc'
  zero_add := JNum.zero_add'
  add_zero := JNum.add_zero'
  add_comm := JNum.add_comm'
  nsmul := nsmulRec

/-! ## Helper lemmas about the totals -/

lemma foldl_add_amount (l : List Transaction) (a : JNum) :
    l.foldl (fun sum t => sum + t.amount) a = a + (l.map Transaction.amount).sum := by
  induction l generalizing a with
  | nil => simp
  | cons t ts ih => simp [ih, add_assoc]

lemma totalAmount_eq_sum (l : List Transaction) :
    totalAmount l = (l.map Transaction.amount).sum := by
  rw [totalAmount, ← JNum.zero_def, foldl_add_amount, zero_add]

lemma totalIncome_eq_sum (l : List Transaction) :
    totalIncome l
      = ((l.filter fun item => item.type == "income").map Transaction.amount).sum := by
  rw [totalIncome, ← JNum.zero_def, foldl_add_amount, zero_add]

lemma totalExpenses_eq_sum (l : List Transaction) :
    totalExpenses l
      = ((l.filter fun item => item.type == "expense").map Transaction.amount).sum := by
  rw [totalExpenses, ← JNum.zero_def, foldl_add_amount, zero_add]

lemma sum_amounts_split (l : List Transaction)
    (h : ∀ t ∈ l, t.type = "expense" ∨ t.type = "income") :
    (l.map Transaction.amount).sum
      = ((l.filter fun item => item.type == "income").map Transaction.amount).sum
        + ((l.filter fun item => item.type == "expense").map Transaction.amount).sum := by
  induction l with
  | nil => simp
  | cons t ts ih =>
    have hts : ∀ x ∈ ts, x.type = "expense" ∨ x.type = "income" :=
      fun x hx => h x (List.mem_cons_of_mem _ hx)
    rcases h t (List.mem_cons_self _ _) with h1 | h1 <;>
      simp [List.filter_cons, h1, ih hts, add_assoc, add_comm, add_left_comm]

/-! ## Helper lemmas about the update-by-id map -/

lemma map_ite_id_of_not_mem (l : List Transaction) (eid : String)
    (new : Transaction) (h : ∀ e ∈ l, e.id ≠ eid) :
    (l.map fun e => if e.id = eid then new else e) = l := by
  induction l with
  | nil => rfl
  | cons hd tl ih =>
    simp only [List.map_cons, if_neg (h hd (List.mem_cons_self _ _)),
      ih fun e he => h e (List.mem_cons_of_mem _ he)]

lemma map_update_eq_set (l : List Transaction) (i : ℕ) (old new : Transaction)
    (hget : l[i]? = some old) (hnodup : (l.map Transaction.id).Nodup) :
    (l.map fun e => if e.id = old.id then new else e) = l.set i new := by
  induction l generalizing i with
  | nil => simp at hget
  | cons hd tl ih =>
    rw [List.map_cons, List.nodup_cons] at hnodup
    cases i with
    | zero =>
      rw [List.getElem?_cons_zero] at hget
      injection hget with h
      subst h
      simp only [List.map_cons, if_pos rfl, List.set_cons_zero]
      congr 1
      exact map_ite_id_of_not_mem _ _ _
        fun e he heq => hnodup.1 (List.mem_map.mpr ⟨e, he, heq⟩)
    | succ n =>
      rw [List.getElem?_cons_succ] at hget
      have hne : hd.id ≠ old.id := fun h =>
        hnodup.1 (h ▸ List.mem_map.mpr ⟨old, List.getElem?_mem hget, rfl⟩)
      simp only [List.map_cons, if_neg hne, List.set_cons_succ,
        ih n hget hnodup.2]

/-! ## Concrete fixtures used by witnesses and counterexamples -/

/-- Fresh install: no transactions, balance and cumulative income `0`. -/
def tracker0 : LedgerState := ⟨[], .num 0, .num 0⟩

/-- A fully filled income form. -/
def formSalary : Form :=
  ⟨"2024-01-01", "Salary for January", "Salary", "1000", "Cash", "income"⟩

/-- A fully filled expense form whose amount text parses to a negative
number. -/
def formNegAmount : Form :=
  ⟨"2024-01-01", "Negative amount text", "Other", "-5", "Cash", "expense"⟩

/-- A form with an empty `description`. -/
def formNoDescription : Form := ⟨"2024-01-01", "", "Food", "200", "Cash", "expense"⟩

/-- An income form used to edit an existing transaction. -/
def formSalary1500 : Form :=
  ⟨"2024-01-02", "Salary corrected", "Salary", "1500", "Cash", "income"⟩

/-- The transaction Scenario A records. -/
def txSalary : Transaction :=
  ⟨"1", "2024-01-01", "Salary for January", "Salary", .num 1000, "Cash", "income"⟩

/-- State after Scenario A. -/
def tracker1 : LedgerState := ⟨[txSalary], .num 1000, .num 1000⟩

/-- A `StorageEnv` in which every write fails. -/
def envAllFail : StorageEnv := ⟨true, true, true⟩

/-- A `StorageEnv` in which only the transaction-list write fails. -/
def envExpensesFail : StorageEnv := ⟨true, false, false⟩

lemma parseFloat_1000 : parseFloat "1000" = .num 1000 := by
  simp [parseFloat, parseSigned, parseUnsigned, parseExponent, digitsToNat, pow10,
    isJsWhitespace]

lemma parseFloat_1500 : parseFloat "1500" = .num 1500 := by
  simp [parseFloat, parseSigned, parseUnsigned, parseExponent, digitsToNat, pow10,
    isJsWhitespace]

lemma parseFloat_neg5 : parseFloat "-5" = .num (-5) := by
  simp [parseFloat, parseSigned, parseUnsigned, parseExponent, digitsToNat, pow10,
    isJsWhitespace]

/-- C1: For every valid add with no `editingId` (all five fields non-empty
and the amount text parsing to a finite positive number), `addOrUpdateExpense`
appends a new transaction carrying the freshly generated id to the end of
the list; if the form type is `income` then the new balance is the old plus
the amount and cumulative income grows by the amount, otherwise the balance
shrinks by the amount and cumulative income is unchanged. -/
theorem claim_C1_create_appends (env : StorageEnv) (s : LedgerState)
    (form : Form) (freshId : String) (a : ℚ)
    (hdate : form.date ≠ "") (hdesc : form.description ≠ "")
    (hcat : form.category ≠ "") (hamt : form.amount ≠ "")
    (hpay : form.paymentMethod ≠ "")
    (hparse : parseFloat form.amount = JNum.num a) (_hpos : 0 < a) :
    ∃ t : Transaction,
      (addOrUpdateExpense env s form none freshId).outcome = AddOutcome.saved ∧
      (addOrUpdateExpense env s form none freshId).state.expenses
          = s.expenses ++ [t] ∧
      t.id = freshId ∧
      t.amount = JNum.num a ∧
      (form.type = "income" →
        (addOrUpdateExpense env s form none freshId).state.permanentBalance
            = s.permanentBalance + JNum.num a ∧
        (addOrUpdateExpense env s form none freshId).state.permanentTotalIncome
            = s.permanentTotalIncome + JNum.num a) ∧
      (form.type ≠ "income" →
        (addOrUpdateExpense env s form none freshId).state.permanentBalance
            = s.permanentBalance - JNum.num a ∧
        (addOrUpdateExpense env s form none freshId).state.permanentTotalIncome
            = s.permanentTotalIncome) := by
  refine ⟨⟨freshId, form.date, form.description, form.category, JNum.num a,
      form.paymentMethod, if form.type = "" then "expense" else form.type⟩,
    ?_, ?_, rfl, rfl, ?_, ?_⟩
  · simp [addOrUpdateExpense, hdate, hdesc, hcat, hamt, hpay]
  · simp [addOrUpdateExpense, hdate, hdesc, hcat, hamt, hpay, hparse]
  · intro hty
    constructor <;>
      simp [addOrUpdateExpense, hdate, hdesc, hcat, hamt, hpay, hparse, hty]
  · intro hty
    constructor <;>
      simp [addOrUpdateExpense, hdate, hdesc, hcat, hamt, hpay, hparse, hty]

/-- Witness for C1: Scenario A (add income 1000 to a fresh tracker). -/
theorem claim_C1_witness :
    ∃ t : Transaction,
      (addOrUpdateExpense envOk tracker0 formSalary none "1").outcome
          = AddOutcome.saved ∧
      (addOrUpdateExpense envOk tracker0 formSalary none "1").state.expenses
          = tracker0.expenses ++ [t] ∧
      t.id = "1" ∧
      t.amount = JNum.num 1000 ∧
      (formSalary.type = "income" →
        (addOrUpdateExpense envOk tracker0 formSalary none "1").state.permanentBalance
            = tracker0.permanentBalance + JNum.num 1000 ∧
        (addOrUpdateExpense envOk tracker0 formSalary none "1").state.permanentTotalIncome
            = tracker0.permanentTotalIncome + JNum.num 1000) ∧
      (formSalary.type ≠ "income" →
        (addOrUpdateExpense envOk tracker0 formSalary none "1").state.permanentBalance
            = tracker0.permanentBalance - JNum.num 1000 ∧
        (addOrUpdateExpense envOk tracker0 formSalary none "1").state.permanentTotalIncome
            = tracker0.permanentTotalIncome) :=
  claim_C1_create_appends envOk tracker0 formSalary "1" 1000
    (by decide) (by decide) (by decide) (by decide) (by decide)
    parseFloat_1000 (by norm_num)

/-- C2: For every valid update (non-empty `editingId` naming a transaction
of the list, unique ids), `addOrUpdateExpense` replaces the transaction
with that id in place — the result is `set i t` at the old position, all
other entries untouched — and applies the full new amount to the balance
(and to cumulative income when the type is income) without reversing the
old transaction's contribution: the deltas are exactly those of a create. -/
theorem claim_C2_update_in_place (env : StorageEnv) (s : LedgerState)
    (form : Form) (eid freshId : String) (i : ℕ) (old : Transaction) (a : ℚ)
    (hdate : form.date ≠ "") (hdesc : form.description ≠ "")
    (hcat : form.category ≠ "") (hamt : form.amount ≠ "")
    (hpay : form.paymentMethod ≠ "") (heid : eid ≠ "")
    (hget : s.expenses[i]? = some old) (hid : old.id = eid)
    (hnodup : (s.expenses.map Transaction.id).Nodup)
    (hparse : parseFloat form.amount = JNum.num a) (_hpos : 0 < a) :
    ∃ t : Transaction,
      (addOrUpdateExpense env s form (some eid) freshId).outcome
          = AddOutcome.saved ∧
      (addOrUpdateExpense env s form (some eid) freshId).state.expenses
          = s.expenses.set i t ∧
      t.id = eid ∧
      t.amount = JNum.num a ∧
      (form.type = "income" →
        (addOrUpdateExpense env s form (some eid) freshId).state.permanentBalance
            = s.permanentBalance + JNum.num a ∧
        (addOrUpdateExpense env s form (some eid) freshId).state.permanentTotalIncome
            = s.permanentTotalIncome + JNum.num a) ∧
      (form.type ≠ "income" →
        (addOrUpdateExpense env s form (some eid) freshId).state.permanentBalance
            = s.permanentBalance - JNum.num a ∧
        (addOrUpdateExpense env s form (some eid) freshId).state.permanentTotalIncome
            = s.permanentTotalIncome) := by
  subst hid
  refine ⟨⟨old.id, form.date, form.description, form.category, JNum.num a,
      form.paymentMethod, if form.type = "" then "expense" else form.type⟩,
    ?_, ?_, rfl, rfl, ?_, ?_⟩
  · simp [addOrUpdateExpense, hdate, hdesc, hcat, hamt, hpay]
  · rw [← map_update_eq_set s.expenses i old _ hget hnodup]
    simp [addOrUpdateExpense, hdate, hdesc, hcat, hamt, hpay, heid, hparse]
  · intro hty
    constructor <;>
      simp [addOrUpdateExpense, hdate, hdesc, hcat, hamt, hpay, hparse, hty]
  · intro hty
    constructor <;>
      simp [addOrUpdateExpense, hdate, hdesc, hcat, hamt, hpay, hparse, hty]

/-- Witness for C2: Scenario D (edit the income transaction's amount from
1000 to 1500; the new 1500 is added on top of the old contribution). -/
theorem claim_C2_witness :
    ∃ t : Transaction,
      (addOrUpdateExpense envOk tracker1 formSalary1500 (some "1") "2").outcome
          = AddOutcome.saved ∧
      (addOrUpdateExpense envOk tracker1 formSalary1500 (some "1") "2").state.expenses
          = tracker1.expenses.set 0 t ∧
      t.id = "1" ∧
      t.amount = JNum.num 1500 ∧
      (formSalary1500.type = "income" →
        (addOrUpdateExpense envOk tracker1 formSalary1500 (some "1") "2").state.permanentBalance
            = tracker1.permanentBalance + JNum.num 1500 ∧
        (addOrUpdateExpense envOk tracker1 formSalary1500 (some "1") "2").state.permanentTotalIncome
            = tracker1.permanentTotalIncome + JNum.num 1500) ∧
      (formSalary1500.type ≠ "income" →
        (addOrUpdateExpense envOk tracker1 formSalary1500 (some "1") "2").state.permanentBalance
            = tracker1.permanentBalance - JNum.num 1500 ∧
        (addOrUpdateExpense envOk tracker1 formSalary1500 (some "1") "2").state.permanentTotalIncome
            = tracker1.permanentTotalIncome) :=
  claim_C2_update_in_place envOk tracker1 formSalary1500 "1" "2" 0 txSalary 1500
    (by decide) (by decide) (by decide) (by decide) (by decide) (by decide)
    (by simp [tracker1, txSalary]) rfl (by simp [tracker1, txSalary])
    parseFloat_1500 (by norm_num)

/-- Counterexample to C3 as stated: `formNegAmount` has all five fields
non-empty but its amount text `"-5"` parses to `-5`, which is not a
positive number.  The claim demands a validation failure leaving state
unchanged; instead `addOrUpdateExpense` reports the save, appends the
transaction, and even *increases* the balance by 5 for this "expense". -/
theorem claim_C3_counterexample :
    parseFloat formNegAmount.amount = JNum.num (-5) ∧
    ¬ (0 : ℚ) < -5 ∧
    (addOrUpdateExpense envOk tracker0 formNegAmount none "1").outcome
        = AddOutcome.saved ∧
    (addOrUpdateExpense envOk tracker0 formNegAmount none "1").state.expenses.length
        = 1 ∧
    (addOrUpdateExpense envOk tracker0 formNegAmount none "1").state.permanentBalance
        = JNum.num 5 := by
  refine ⟨parseFloat_neg5, by norm_num, ?_, ?_, ?_⟩
  · simp [addOrUpdateExpense, formNegAmount, tracker0]
  · simp [addOrUpdateExpense, formNegAmount, tracker0]
  · simp only [addOrUpdateExpense, formNegAmount, tracker0]
    norm_num [parseFloat_neg5, JNum.sub_def, JNum.neg, JNum.add]
    simp

/-- C3 amended: `addOrUpdateExpense` fails with the validation error,
leaving the list, balance and cumulative income unchanged and writing
nothing, exactly when one of date, description, category, amount or
paymentMethod is empty.  An amount that does not parse to a finite
positive number is *not* rejected: any non-empty amount text passes
validation and the raw `parseFloat` result is recorded. -/
theorem claim_C3_validation (env : StorageEnv) (s : LedgerState) (form : Form)
    (editingId : Option String) (freshId : String) :
    ((addOrUpdateExpense env s form editingId freshId).outcome
        = AddOutcome.validationError
      ↔ (form.date = "" ∨ form.description = "" ∨ form.category = "" ∨
         form.amount = "" ∨ form.paymentMethod = "")) ∧
    ((addOrUpdateExpense env s form editingId freshId).outcome
        = AddOutcome.validationError →
      (addOrUpdateExpense env s form editingId freshId).state = s ∧
      (addOrUpdateExpense env s form editingId freshId).writes = []) := by
  by_cases h : form.date = "" ∨ form.description = "" ∨ form.category = "" ∨
      form.amount = "" ∨ form.paymentMethod = ""
  · refine ⟨by simp [addOrUpdateExpense, h], fun _ => ?_⟩
    simp [addOrUpdateExpense, h]
  · refine ⟨by simp [addOrUpdateExpense, h], fun habs => absurd habs ?_⟩
    simp [addOrUpdateExpense, h]

/-- Witness for C3 (amended): Scenario F — missing description is
rejected with the validation error and nothing changes. -/
theorem claim_C3_witness :
    (addOrUpdateExpense envOk tracker0 formNoDescription none "1").outcome
        = AddOutcome.validationError ∧
    (addOrUpdateExpense envOk tracker0 formNoDescription none "1").state
        = tracker0 ∧
    (addOrUpdateExpense envOk tracker0 formNoDescription none "1").writes = [] := by
  have h := claim_C3_validation envOk tracker0 formNoDescription none "1"
  have hv := h.1.mpr (Or.inr (Or.inl rfl))
  exact ⟨hv, h.2 hv⟩

/-- C4: deleting an id always succeeds and yields a list with no
transaction carrying that id, order and multiplicity of all other
transactions preserved (it is a sublist with unchanged counts); balance
and cumulative income are untouched, and every write that lands in
storage is a transaction-list write (exactly one when that write
succeeds). -/
theorem claim_C4_delete_frame (env : StorageEnv) (s : LedgerState)
    (id : String) :
    ∃ (s' : LedgerState) (w : List StorageWrite),
      deleteExpense env s id = .ok (s', w) ∧
      (∀ t ∈ s'.expenses, t.id ≠ id) ∧
      s'.expenses.Sublist s.expenses ∧
      (∀ t : Transaction, t.id ≠ id → s'.expenses.count t = s.expenses.count t) ∧
      s'.permanentBalance = s.permanentBalance ∧
      s'.permanentTotalIncome = s.permanentTotalIncome ∧
      (∀ wr ∈ w, ∃ l, wr = StorageWrite.wExpenses l) ∧
      (env.setExpensesFails = false → w = [StorageWrite.wExpenses s'.expenses]) := by
  refine ⟨⟨s.expenses.filter fun e => e.id != id, s.permanentBalance,
      s.permanentTotalIncome⟩,
    saveExpensesToStorage env (s.expenses.filter fun e => e.id != id),
    rfl, ?_, List.filter_sublist _, ?_, rfl, rfl, ?_, ?_⟩
  · intro t ht
    exact bne_iff_ne.mp (List.mem_filter.mp ht).2
  · intro t ht
    exact List.count_filter (bne_iff_ne.mpr ht)
  · intro wr hwr
    cases hfail : env.setExpensesFails <;>
      simp [saveExpensesToStorage, hfail] at hwr
    exact ⟨_, hwr⟩
  · intro hfail
    simp [saveExpensesToStorage, hfail]

/-- Witness for C4: Scenario C-like delete on a one-transaction tracker. -/
theorem claim_C4_witness :
    ∃ (s' : LedgerState) (w : List StorageWrite),
      deleteExpense envOk tracker1 "1" = .ok (s', w) ∧
      (∀ t ∈ s'.expenses, t.id ≠ "1") ∧
      s'.expenses.Sublist tracker1.expenses ∧
      (∀ t : Transaction, t.id ≠ "1" →
        s'.expenses.count t = tracker1.expenses.count t) ∧
      s'.permanentBalance = tracker1.permanentBalance ∧
      s'.permanentTotalIncome = tracker1.permanentTotalIncome ∧
      (∀ wr ∈ w, ∃ l, wr = StorageWrite.wExpenses l) ∧
      (envOk.setExpensesFails = false → w = [StorageWrite.wExpenses s'.expenses]) :=
  claim_C4_delete_frame envOk tracker1 "1"

/-- C5: deleting an id that no transaction carries returns the state
entirely unchanged, and is still reported as a success (`ok`, the
"Transaction deleted" path) rather than an error. -/
theorem claim_C5_delete_missing_id (env : StorageEnv) (s : LedgerState)
    (id : String) (h : ∀ t ∈ s.expenses, t.id ≠ id) :
    ∃ w, deleteExpense env s id = .ok (s, w) := by
  have hfilter : s.expenses.filter (fun e => e.id != id) = s.expenses :=
    List.filter_eq_self.mpr fun t ht => bne_iff_ne.mpr (h t ht)
  refine ⟨saveExpensesToStorage env s.expenses, ?_⟩
  simp [deleteExpense, hfilter]

/-- Witness for C5: deleting an absent id from the one-transaction
tracker. -/
theorem claim_C5_witness :
    ∃ w, deleteExpense envOk tracker1 "99" = .ok (tracker1, w) :=
  claim_C5_delete_missing_id envOk tracker1 "99" (by decide)

/-- C6: `resetBalance` always sets the balance to 0, leaves the
transaction list and cumulative income untouched, and the only record it
ever writes is the balance (exactly one write when that write succeeds). -/
theorem claim_C6_reset_frame (env : StorageEnv) (s : LedgerState) :
    ∃ (s' : LedgerState) (w : List StorageWrite),
      resetBalance env s = .ok (s', w) ∧
      s'.permanentBalance = JNum.num 0 ∧
      s'.expenses = s.expenses ∧
      s'.permanentTotalIncome = s.permanentTotalIncome ∧
      (∀ wr ∈ w, wr = StorageWrite.wBalance (JNum.num 0)) ∧
      (env.setBalanceFails = false → w = [StorageWrite.wBalance (JNum.num 0)]) := by
  refine ⟨⟨s.expenses, JNum.num 0, s.permanentTotalIncome⟩,
    saveBalanceToStorage env (JNum.num 0), rfl, rfl, rfl, rfl, ?_, ?_⟩
  · intro wr hwr
    cases hfail : env.setBalanceFails <;>
      simp [saveBalanceToStorage, hfail] at hwr
    exact hwr
  · intro hfail
    simp [saveBalanceToStorage, hfail]

/-- Witness for C6: Scenario E on a tracker holding balance 1000. -/
theorem claim_C6_witness :
    ∃ (s' : LedgerState) (w : List StorageWrite),
      resetBalance envOk tracker1 = .ok (s', w) ∧
      s'.permanentBalance = JNum.num 0 ∧
      s'.expenses = tracker1.expenses ∧
      s'.permanentTotalIncome = tracker1.permanentTotalIncome ∧
      (∀ wr ∈ w, wr = StorageWrite.wBalance (JNum.num 0)) ∧
      (envOk.setBalanceFails = false → w = [StorageWrite.wBalance (JNum.num 0)]) :=
  claim_C6_reset_frame envOk tracker1

/-- Counterexample to C7 as stated: with the transaction-list write
failing (`envExpensesFail`), a valid add still reports the save and
updates all in-memory state — the transaction list grows and the balance
moves — and the only writes that landed are the balance and
cumulative-income records.  The persistence failure neither blocks the
in-memory update nor is distinguishable by the caller. -/
theorem claim_C7_counterexample :
    (addOrUpdateExpense envExpensesFail tracker0 formSalary none "1").outcome
        = AddOutcome.saved ∧
    (addOrUpdateExpense envExpensesFail tracker0 formSalary none "1").state.expenses.length
        = 1 ∧
    (addOrUpdateExpense envExpensesFail tracker0 formSalary none "1").state.permanentBalance
        = JNum.num 1000 ∧
    (addOrUpdateExpense envExpensesFail tracker0 formSalary none "1").writes
        = [StorageWrite.wBalance (JNum.num 1000),
           StorageWrite.wTotalIncome (JNum.num 1000)] := by
  refine ⟨?_, ?_, ?_, ?_⟩ <;>
    · simp only [addOrUpdateExpense, envExpensesFail, tracker0, formSalary,
        saveExpensesToStorage, saveBalanceToStorage, saveTotalIncomeToStorage]
      norm_num [parseFloat_1000, JNum.add_def, JNum.add]
      simp

/-- C7 amended: on validation failure `addOrUpdateExpense` leaves all
in-memory state unchanged, writes nothing, and tells the caller it was a
validation failure.  A storage write failure, however, is swallowed
inside the save helpers: the outcome and the resulting in-memory state
are identical under any two storage environments, so the operation still
updates the list, balance and cumulative income and reports the same
success, and the caller cannot distinguish a storage failure at all. -/
theorem claim_C7_failure_handling (env₁ env₂ : StorageEnv) (s : LedgerState)
    (form : Form) (editingId : Option String) (freshId : String) :
    ((addOrUpdateExpense env₁ s form editingId freshId).outcome
        = (addOrUpdateExpense env₂ s form editingId freshId).outcome ∧
     (addOrUpdateExpense env₁ s form editingId freshId).state
        = (addOrUpdateExpense env₂ s form editingId freshId).state) ∧
    ((form.date = "" ∨ form.description = "" ∨ form.category = "" ∨
        form.amount = "" ∨ form.paymentMethod = "") →
      addOrUpdateExpense env₁ s form editingId freshId
        = ⟨AddOutcome.validationError, s, []⟩) := by
  by_cases h : form.date = "" ∨ form.description = "" ∨ form.category = "" ∨
      form.amount = "" ∨ form.paymentMethod = ""
  · exact ⟨by simp [addOrUpdateExpense, h], fun _ => by simp [addOrUpdateExpense, h]⟩
  · exact ⟨by simp [addOrUpdateExpense, h], fun habs => absurd habs h⟩

/-- Witness for C7 (amended): a missing description is reported as a
validation failure with nothing changed even when every write would fail,
and for a valid add the outcome and state under an all-failing storage
equal those under a fully working one. -/
theorem claim_C7_witness :
    addOrUpdateExpense envAllFail tracker0 formNoDescription none "1"
        = ⟨AddOutcome.validationError, tracker0, []⟩ ∧
    (addOrUpdateExpense envAllFail tracker0 formSalary none "1").outcome
        = (addOrUpdateExpense envOk tracker0 formSalary none "1").outcome ∧
    (addOrUpdateExpense envAllFail tracker0 formSalary none "1").state
        = (addOrUpdateExpense envOk tracker0 formSalary none "1").state :=
  ⟨(claim_C7_failure_handling envAllFail envOk tracker0 formNoDescription
      none "1").2 (Or.inr (Or.inl rfl)),
   (claim_C7_failure_handling envAllFail envOk tracker0 formSalary
      none "1").1.1,
   (claim_C7_failure_handling envAllFail envOk tracker0 formSalary
      none "1").1.2⟩

/-- C8: each load helper is a total function of the `getItem` outcome and
the parse, and whenever the stored value is absent (no entry), unreadable
(`getItem` itself failed, the stored text is empty, or `JSON.parse`
throws), it returns the documented default — the empty list for the
transaction-list key and `0` for the balance and cumulative-income keys —
instead of raising. -/
theorem claim_C8_load_defaults (getE getB getI : Except Unit (Option String))
    (pE : String → Except Unit (List Transaction))
    (pB pI : String → Except Unit JNum) :
    ((getE = .error () ∨ getE = .ok none ∨
        ∃ str, getE = .ok (some str) ∧ (str = "" ∨ pE str = .error ())) →
      loadExpensesFromStorage getE pE = []) ∧
    ((getB = .error () ∨ getB = .ok none ∨
        ∃ str, getB = .ok (some str) ∧ (str = "" ∨ pB str = .error ())) →
      loadBalanceFromStorage getB pB = JNum.num 0) ∧
    ((getI = .error () ∨ getI = .ok none ∨
        ∃ str, getI = .ok (some str) ∧ (str = "" ∨ pI str = .error ())) →
      loadTotalIncomeFromStorage getI pI = JNum.num 0) := by
  refine ⟨?_, ?_, ?_⟩ <;>
    · rintro (h | h | ⟨str, hg, h2⟩)
      · subst h; rfl
      · subst h; rfl
      · subst hg
        rcases h2 with h2 | h2
        · subst h2; rfl
        · by_cases hs : str = "" <;>
            simp [loadExpensesFromStorage, loadBalanceFromStorage,
              loadTotalIncomeFromStorage, hs, h2]

/-- Witness for C8: an absent list entry, a failing balance read, and
unparseable cumulative-income text all yield the defaults. -/
theorem claim_C8_witness :
    loadExpensesFromStorage (.ok none) (fun _ => .error ()) = [] ∧
    loadBalanceFromStorage (.error ()) (fun _ => .error ()) = JNum.num 0 ∧
    loadTotalIncomeFromStorage (.ok (some "garbage")) (fun _ => .error ())
        = JNum.num 0 := by
  have h := claim_C8_load_defaults (.ok none) (.error ()) (.ok (some "garbage"))
    (fun _ => .error ()) (fun _ => .error ()) (fun _ => .error ())
  exact ⟨h.1 (Or.inr (Or.inl rfl)), h.2.1 (Or.inl rfl),
    h.2.2 (Or.inr (Or.inr ⟨"garbage", rfl, Or.inr rfl⟩))⟩

/-- C9: the three derived totals are pure functions of the current list:
`totalIncome` is the sum of the amounts of the `income`-typed
transactions, `totalExpenses` the sum over the `expense`-typed ones, and
`totalAmount` the sum of every amount regardless of type. -/
theorem claim_C9_derived_totals (l : List Transaction) :
    totalIncome l
        = ((l.filter fun item => item.type == "income").map Transaction.amount).sum ∧
    totalExpenses l
        = ((l.filter fun item => item.type == "expense").map Transaction.amount).sum ∧
    totalAmount l = (l.map Transaction.amount).sum :=
  ⟨totalIncome_eq_sum l, totalExpenses_eq_sum l, totalAmount_eq_sum l⟩

/-- Lists reachable from the empty tracker through `addOrUpdateExpense`
alone, with the form's type one of the values the UI can hold: `""`
(missing), `"expense"` or `"income"` (the two selector buttons). -/
inductive BuiltByAddOrUpdate : List Transaction → Prop where
  | nil : BuiltByAddOrUpdate []
  | step (env : StorageEnv) (s : LedgerState) (form : Form)
      (editingId : Option String) (freshId : String) :
      BuiltByAddOrUpdate s.expenses →
      (form.type = "" ∨ form.type = "expense" ∨ form.type = "income") →
      BuiltByAddOrUpdate
        (addOrUpdateExpense env s form editingId freshId).state.expenses

lemma addOrUpdate_new_types (env : StorageEnv) (s : LedgerState)
    (form : Form) (editingId : Option String) (freshId : String)
    (htype : form.type = "" ∨ form.type = "expense" ∨ form.type = "income") :
    ∀ t ∈ (addOrUpdateExpense env s form editingId freshId).state.expenses,
      t ∈ s.expenses ∨ t.type = "expense" ∨ t.type = "income" := by
  intro t ht
  have hnewtype : (if form.type = "" then "expense" else form.type) = "expense"
      ∨ (if form.type = "" then "expense" else form.type) = "income" := by
    rcases htype with h | h | h <;> simp [h]
  by_cases hv : form.date = "" ∨ form.description = "" ∨ form.category = "" ∨
      form.amount = "" ∨ form.paymentMethod = ""
  · left
    simpa [addOrUpdateExpense, hv] using ht
  · rcases editingId with _ | e
    · simp only [addOrUpdateExpense, if_neg hv, List.mem_append,
        List.mem_singleton] at ht
      rcases ht with ht | ht
      · exact Or.inl ht
      · subst ht
        exact Or.inr hnewtype
    · by_cases he : e = ""
      · subst he
        rw [addOrUpdateExpense, if_neg hv] at ht
        simp at ht
        rcases ht with ht | ht
        · exact Or.inl ht
        · subst ht
          exact Or.inr hnewtype
      · simp only [addOrUpdateExpense, if_neg hv, if_neg he, List.mem_map] at ht
        obtain ⟨x, hx, hxt⟩ := ht
        by_cases hxe : x.id = e
        · rw [if_pos hxe] at hxt
          subst hxt
          exact Or.inr hnewtype
        · rw [if_neg hxe] at hxt
          subst hxt
          exact Or.inl hx

lemma builtBy_types {l : List Transaction} (h : BuiltByAddOrUpdate l) :
    ∀ t ∈ l, t.type = "expense" ∨ t.type = "income" := by
  induction h with
  | nil => simp
  | step env s form editingId freshId _ htype ih =>
    intro t ht
    rcases addOrUpdate_new_types env s form editingId freshId htype t ht with
      h | h
    · exact ih t h
    · exact h

/-- C10: every transaction `addOrUpdateExpense` writes to the list either
was already there or carries type `"expense"` or `"income"` (a missing —
empty — form type defaults to `"expense"`); consequently, for any list
built solely by `addOrUpdateExpense` operations,
`totalAmount = totalIncome + totalExpenses`. -/
theorem claim_C10_types_partition :
    (∀ (env : StorageEnv) (s : LedgerState) (form : Form)
        (editingId : Option String) (freshId : String),
      (form.type = "" ∨ form.type = "expense" ∨ form.type = "income") →
      ∀ t ∈ (addOrUpdateExpense env s form editingId freshId).state.expenses,
        t ∈ s.expenses ∨ t.type = "expense" ∨ t.type = "income") ∧
    (∀ l, BuiltByAddOrUpdate l →
        totalAmount l = totalIncome l + totalExpenses l) := by
  refine ⟨addOrUpdate_new_types, fun l hl => ?_⟩
  rw [totalAmount_eq_sum, totalIncome_eq_sum, totalExpenses_eq_sum]
  exact sum_amounts_split l (builtBy_types hl)

/-- Witness for C10: the list produced by one `addOrUpdateExpense` on the
fresh tracker satisfies the totals identity. -/
theorem claim_C10_witness :
    totalAmount (addOrUpdateExpense envOk tracker0 formSalary none "1").state.expenses
      = totalIncome (addOrUpdateExpense envOk tracker0 formSalary none "1").state.expenses
        + totalExpenses (addOrUpdateExpense envOk tracker0 formSalary none "1").state.expenses :=
  claim_C10_types_partition.2 _
    (BuiltByAddOrUpdate.step envOk tracker0 formSalary none "1"
      BuiltByAddOrUpdate.nil (Or.inr (Or.inr rfl)))
